import Mathlib

/-!
Verification development for the device-driver DSL compiler.

The development shallowly embeds:
* the DSL AST (`dsl_hir`) as consumed by `dsl_hir_mir_transform.rs`,
* the mid-level model (`mir`) as constructed by that transform,
* the semantic resolver (`dsl_hir_mir_transform`), with the `todo!()`
  panic sites modelled explicitly by a `TResult.panics` outcome,
* the field-set generator (`field_set_transform.rs`) as a function from a
  `lir.FieldSet` to a structured description of the emitted items,
* the bit packing/unpacking operations (`ops::load_lsb0` etc.); their
  implementation is not in the sources, so the operations are modelled from
  the specification while the four-way regime dispatch is taken from
  `get_read_function`/`get_write_function`,
* the low-level register accessor macro (`ll/register.rs`).
-/

set_option maxHeartbeats 1000000

/-- Rust `core::ops::Range<u64>` / `Range<Literal>` as used for field bit
ranges: the half-open range `[start, end_)`. -/
structure RustRange where
  start : Nat
  end_ : Nat
deriving DecidableEq

namespace dsl_hir

/-- `dsl_hir::Access` (five variants, as matched by the transform). -/
inductive Access where
  | RW
  | RC
  | RO
  | WO
  | CO
deriving DecidableEq

/-- `dsl_hir::ByteOrder`. -/
inductive ByteOrder where
  | LE
  | BE
deriving DecidableEq

/-- `dsl_hir::BitOrder`. -/
inductive BitOrder where
  | LSB0
  | MSB0
deriving DecidableEq

/-- `dsl_hir::NameCase` (as matched by the transform). -/
inductive NameCase where
  | Varying
  | Pascal
  | Snake
  | ScreamingSnake
  | Camel
  | Kebab
  | Cobol
deriving DecidableEq

/-- `dsl_hir::BaseType`. -/
inductive BaseType where
  | Bool
  | Uint
  | Int
deriving DecidableEq

/-- `dsl_hir::BaseType::is_bool` (worker; inside the `BaseType` namespace
the name `Bool` would resolve to the constructor). -/
def baseTypeIsBool : BaseType → Bool
  | .Bool => true
  | _ => false

/-- `dsl_hir::BaseType::is_bool`. -/
def BaseType.is_bool (b : BaseType) := baseTypeIsBool b

/-- `dsl_hir::Repeat { count: LitInt, stride: LitInt }`. Literals are
modelled as their (arbitrary-precision) natural number value. -/
structure Repeat where
  count : Nat
  stride : Nat
deriving DecidableEq

/-- `dsl_hir::Attribute`: a doc string or a cfg condition, each carrying a
source span (modelled as an opaque number, unused by the transform except
for error locations). -/
inductive Attribute where
  | Doc (val : String) (span : Nat)
  | Cfg (val : String) (span : Nat)
deriving DecidableEq

/-- `dsl_hir::AttributeList`. -/
structure AttributeList where
  attributes : List Attribute
deriving DecidableEq

/-- `dsl_hir::GlobalConfig`, the nine option kinds matched by
`TryFrom<GlobalConfigList> for mir::GlobalConfig`. Address-type options
carry a raw identifier (`syn::Ident`, modelled as a string). -/
inductive GlobalConfig where
  | DefaultRegisterAccess (a : Access)
  | DefaultFieldAccess (a : Access)
  | DefaultBufferAccess (a : Access)
  | DefaultByteOrder (o : ByteOrder)
  | DefaultBitOrder (o : BitOrder)
  | RegisterAddressType (ident : String)
  | CommandAddressType (ident : String)
  | BufferAddressType (ident : String)
  | NameCase (c : NameCase)
deriving DecidableEq

/-- `dsl_hir::GlobalConfigList`. -/
structure GlobalConfigList where
  configs : List GlobalConfig
deriving DecidableEq

/-- `dsl_hir::FieldAddress`. -/
inductive FieldAddress where
  | Integer (v : Nat)
  | Range (start : Nat) (end_ : Nat)
  | RangeInclusive (start : Nat) (end_ : Nat)
deriving DecidableEq

/-- `dsl_hir::EnumValue`. -/
inductive EnumValue where
  | Specified (v : Nat)
  | Default
  | CatchAll
deriving DecidableEq

/-- `dsl_hir::EnumVariant`. -/
structure EnumVariant where
  attribute_list : AttributeList
  identifier : String
  enum_value : Option EnumValue
deriving DecidableEq

/-- `dsl_hir::EnumVariantList`. -/
structure EnumVariantList where
  variants : List EnumVariant
deriving DecidableEq

/-- `dsl_hir::FieldConversion` as consumed by the transform: a direct
target type path (modelled as its token string) or an inline enum. -/
inductive FieldConversion where
  | Direct (path : String)
  | Enum (identifier : String) (enum_variant_list : EnumVariantList)
deriving DecidableEq

/-- `dsl_hir::Field`. -/
structure Field where
  attribute_list : AttributeList
  identifier : String
  access : Option Access
  base_type : BaseType
  field_conversion : Option FieldConversion
  field_address : FieldAddress
deriving DecidableEq

/-- `dsl_hir::FieldList`. -/
structure FieldList where
  fields : List Field
deriving DecidableEq

/-- `dsl_hir::CommandItem`. -/
inductive CommandItem where
  | Address (v : Nat)
  | ByteOrder (o : ByteOrder)
  | BitOrder (o : BitOrder)
  | SizeBitsIn (v : Nat)
  | SizeBitsOut (v : Nat)
  | Repeat (r : Repeat)
  | AllowBitOverlap (b : Bool)
  | AllowAddressOverlap (b : Bool)
deriving DecidableEq

/-- `dsl_hir::CommandItemList`. -/
structure CommandItemList where
  items : List CommandItem
deriving DecidableEq

/-- `dsl_hir::CommandValue`: the basic numeric form, or the extended form
with an item list and optional `in`/`out` field lists. -/
inductive CommandValue where
  | Basic (v : Nat)
  | Extended (command_item_list : CommandItemList)
      (in_field_list : Option FieldList) (out_field_list : Option FieldList)
deriving DecidableEq

/-- `dsl_hir::Command`. -/
structure Command where
  attribute_list : AttributeList
  identifier : String
  value : Option CommandValue
deriving DecidableEq

/-- `dsl_hir::Buffer`. -/
structure Buffer where
  attribute_list : AttributeList
  identifier : String
  access : Option Access
  address : Option Nat
deriving DecidableEq

/-- `dsl_hir::BlockItem`. -/
inductive BlockItem where
  | AddressOffset (v : Nat)
  | Repeat (r : Repeat)
deriving DecidableEq

/-- `dsl_hir::RegisterItem`. -/
inductive RegisterItem where
  | Access (a : Access)
  | ByteOrder (o : ByteOrder)
  | BitOrder (o : BitOrder)
  | Address (v : Nat)
  | SizeBits (v : Nat)
  | ResetValueInt (v : Nat)
  | ResetValueArray (bytes : List Nat)
  | Repeat (r : Repeat)
  | AllowBitOverlap (b : Bool)
  | AllowAddressOverlap (b : Bool)
deriving DecidableEq

/-- `dsl_hir::Object`. `Block`, `Register` and `RefObject` are recursive
(a block nests an object list, a ref wraps a target object), so their
struct payloads are inlined as constructor arguments. -/
inductive Object where
  | Block (attribute_list : AttributeList) (identifier : String)
      (block_item_list : List BlockItem) (object_list : List Object)
  | Register (attribute_list : AttributeList) (identifier : String)
      (register_item_list : List RegisterItem) (field_list : FieldList)
  | Command (command : Command)
  | Buffer (buffer : Buffer)
  | Ref (attribute_list : AttributeList) (identifier : String) (object : Object)

/-- `dsl_hir::ObjectList`. -/
structure ObjectList where
  objects : List Object

/-- `dsl_hir::Device`. -/
structure Device where
  global_config_list : GlobalConfigList
  object_list : ObjectList

end dsl_hir

namespace mir

/-- `mir::Access`. -/
inductive Access where
  | RW
  | RC
  | RO
  | WO
  | CO
deriving DecidableEq

/-- `mir::ByteOrder`. -/
inductive ByteOrder where
  | LE
  | BE
deriving DecidableEq

/-- `mir::BitOrder`. -/
inductive BitOrder where
  | LSB0
  | MSB0
deriving DecidableEq

/-- `mir::NameCase`. -/
inductive NameCase where
  | Varying
  | Pascal
  | Snake
  | ScreamingSnake
  | Camel
  | Kebab
  | Cobol
deriving DecidableEq

/-- `mir::Integer`: the valid address integer types. -/
inductive Integer where
  | U8
  | U16
  | U32
  | U64
  | U128
  | I8
  | I16
  | I32
  | I64
  | I128
deriving DecidableEq

/-- `mir::GlobalConfig` with its nine fields, as assigned by the
transform. -/
structure GlobalConfig where
  default_register_access : Access
  default_field_access : Access
  default_buffer_access : Access
  default_byte_order : ByteOrder
  default_bit_order : BitOrder
  register_address_type : Option Integer
  command_address_type : Option Integer
  buffer_address_type : Option Integer
  name_case : NameCase
deriving DecidableEq

/-- `mir::GlobalConfig::default()`. The mir crate sources are not among
the provided files; the concrete default values are stand-ins and no
theorem below depends on which values they are (only the `Option` fields
being `none` is observable through the transform's tests). -/
def GlobalConfig.default : GlobalConfig where
  default_register_access := .RW
  default_field_access := .RW
  default_buffer_access := .RW
  default_byte_order := .LE
  default_bit_order := .LSB0
  register_address_type := none
  command_address_type := none
  buffer_address_type := none
  name_case := .Varying

/-- `mir::Repeat`. -/
structure Repeat where
  count : Nat
  stride : Nat
deriving DecidableEq

/-- `mir::BaseType`. -/
inductive BaseType where
  | Bool
  | Uint
  | Int
deriving DecidableEq

/-- `mir::EnumValue`. -/
inductive EnumValue where
  | Unspecified
  | Specified (v : Nat)
  | Default
  | CatchAll
deriving DecidableEq

/-- `mir::EnumVariant`. -/
structure EnumVariant where
  cfg_attr : Option String
  description : String
  name : String
  value : EnumValue
deriving DecidableEq

/-- `mir::FieldConversion`. -/
inductive FieldConversion where
  | Direct (path : String)
  | Enum (name : String) (variants : List EnumVariant)
deriving DecidableEq

/-- `mir::Field`. The bit range `field_address` is a Rust `Range<u64>`. -/
structure Field where
  cfg_attr : Option String
  description : String
  name : String
  access : Access
  base_type : BaseType
  field_conversion : Option FieldConversion
  field_address : RustRange
deriving DecidableEq

/-- `mir::Command`. The Rust `repeat` field is spelled `repeat_` because
`repeat` is reserved in Lean. -/
structure Command where
  cfg_attr : Option String
  description : String
  name : String
  address : Nat
  byte_order : ByteOrder
  bit_order : BitOrder
  size_bits_in : Nat
  size_bits_out : Nat
  repeat_ : Option Repeat
  in_fields : List Field
  out_fields : List Field
deriving DecidableEq

/-- `mir::Buffer`. -/
structure Buffer where
  cfg_attr : Option String
  description : String
  name : String
  access : Access
  address : Nat
deriving DecidableEq

/-- `mir::BlockOverride`. Its payload is never constructed by the
transform (the corresponding arm is `todo!()`), so it is modelled as an
opaque one-constructor type. -/
inductive BlockOverride where
  | mk
deriving DecidableEq

/-- `mir::RegisterOverride`: as `BlockOverride`, never constructed. -/
inductive RegisterOverride where
  | mk
deriving DecidableEq

/-- `mir::BufferOverride`: as `BlockOverride`, never constructed. -/
inductive BufferOverride where
  | mk
deriving DecidableEq

/-- `mir::CommandOverride`: all properties optional (selective override). -/
structure CommandOverride where
  name : String
  address : Option Nat
  byte_order : Option ByteOrder
  bit_order : Option BitOrder
  size_bits_in : Option Nat
  size_bits_out : Option Nat
  repeat_ : Option Repeat
  in_fields : Option (List Field)
  out_fields : Option (List Field)
deriving DecidableEq

/-- `mir::ObjectOverride`: note there is no `Ref` variant, so a resolved
ref can never alias another ref. -/
inductive ObjectOverride where
  | Block (o : BlockOverride)
  | Register (o : RegisterOverride)
  | Command (o : CommandOverride)
  | Buffer (o : BufferOverride)
deriving DecidableEq

/-- `mir::RefObject`. -/
structure RefObject where
  cfg_attr : Option String
  description : String
  name : String
  object : ObjectOverride
deriving DecidableEq

/-- `mir::Object`: the variants the transform constructs (the mir crate
sources are not among the provided files; only these three variants are
reachable from the transform). -/
inductive Object where
  | Command (c : Command)
  | Buffer (b : Buffer)
  | Ref (r : RefObject)
deriving DecidableEq

/-- `mir::Device`. -/
structure Device where
  global_config : GlobalConfig
  objects : List Object
deriving DecidableEq

end mir

/-- Structured view of the `syn::Error` values produced by
`dsl_hir_mir_transform.rs`, one constructor per distinct error site,
carrying exactly the data interpolated into the corresponding message. -/
inductive TError where
  | duplicateGlobalConfig (config : dsl_hir.GlobalConfig)
  | mustBeIntegerType
  | onlyOneCfg (n : Nat)
  | commandMustHaveValue (name : String)
  | commandMustHaveAddress (name : String)
  | bufferMustHaveAddress (name : String)
  | nonBoolFieldNeedsRange (name : String)
  | refToRef (name : String)
  | litOutOfRange
deriving DecidableEq

/-- The object or field name interpolated into the error's message, when
the message names one ("Command `X` must have a value", ...). The
duplicate-config, cfg-count, integer-type and literal-parse messages do
not mention the offending object's name. -/
def TError.namedObject : TError → Option String
  | .commandMustHaveValue n => some n
  | .commandMustHaveAddress n => some n
  | .bufferMustHaveAddress n => some n
  | .nonBoolFieldNeedsRange n => some n
  | .refToRef n => some n
  | _ => none

/-- Outcome of a transform function that contains `todo!()` sites (or
calls one that does): success, a returned error, or a panic. -/
inductive TResult (α : Type) where
  | ok (a : α)
  | err (e : TError)
  | panics
deriving DecidableEq

/-- Sequencing of `TResult` computations (Rust `?` plus panic
propagation). -/
def TResult.bind {α β : Type} : TResult α → (α → TResult β) → TResult β
  | .ok a, f => f a
  | .err e, _ => .err e
  | .panics, _ => .panics

/-- Mapping over a `TResult`. -/
def TResult.map {α β : Type} (f : α → β) : TResult α → TResult β
  | .ok a => .ok (f a)
  | .err e => .err e
  | .panics => .panics

/-- Lift a panic-free computation into `TResult`. -/
def liftE {α : Type} : Except TError α → TResult α
  | .ok a => .ok a
  | .error e => .err e

namespace dsl_hir_mir_transform

/-- `impl From<dsl_hir::Access> for mir::Access`. -/
def access_from : dsl_hir.Access → mir.Access
  | .RW => .RW
  | .RC => .RC
  | .RO => .RO
  | .WO => .WO
  | .CO => .CO

/-- `impl From<dsl_hir::ByteOrder> for mir::ByteOrder`. -/
def byte_order_from : dsl_hir.ByteOrder → mir.ByteOrder
  | .LE => .LE
  | .BE => .BE

/-- `impl From<dsl_hir::BitOrder> for mir::BitOrder`. -/
def bit_order_from : dsl_hir.BitOrder → mir.BitOrder
  | .LSB0 => .LSB0
  | .MSB0 => .MSB0

/-- `impl From<dsl_hir::NameCase> for mir::NameCase`. -/
def name_case_from : dsl_hir.NameCase → mir.NameCase
  | .Varying => .Varying
  | .Pascal => .Pascal
  | .Snake => .Snake
  | .ScreamingSnake => .ScreamingSnake
  | .Camel => .Camel
  | .Kebab => .Kebab
  | .Cobol => .Cobol

/-- `impl From<dsl_hir::BaseType> for mir::BaseType`. -/
def base_type_from : dsl_hir.BaseType → mir.BaseType
  | .Bool => .Bool
  | .Uint => .Uint
  | .Int => .Int

/-- `impl TryFrom<syn::Ident> for mir::Integer`: only the ten Rust
integer type names are accepted. -/
def integer_try_from (ident : String) : Except TError mir.Integer :=
  match ident with
  | "u8" => .ok .U8
  | "u16" => .ok .U16
  | "u32" => .ok .U32
  | "u64" => .ok .U64
  | "u128" => .ok .U128
  | "i8" => .ok .I8
  | "i16" => .ok .I16
  | "i32" => .ok .I32
  | "i64" => .ok .I64
  | "i128" => .ok .I128
  | _ => .error .mustBeIntegerType

/-- `LitInt::base10_parse`: the literal's value must fit the target
integer type. The mir target widths are not observable in the provided
sources; all call sites are modelled uniformly with the `u64` width that
appears explicitly in `transform_field`. -/
def base10_parse (lit : Nat) : Except TError Nat :=
  if lit < 2 ^ 64 then .ok lit else .error .litOutOfRange

/-- `impl TryFrom<dsl_hir::Repeat> for mir::Repeat`. -/
def repeat_try_from (value : dsl_hir.Repeat) : Except TError mir.Repeat :=
  match base10_parse value.count with
  | .error e => .error e
  | .ok count =>
    match base10_parse value.stride with
    | .error e => .error e
    | .ok stride => .ok { count, stride }

/-- `std::mem::discriminant` on `dsl_hir::GlobalConfig`: the option kind,
ignoring the payload. -/
def kindIndex : dsl_hir.GlobalConfig → Nat
  | .DefaultRegisterAccess _ => 0
  | .DefaultFieldAccess _ => 1
  | .DefaultBufferAccess _ => 2
  | .DefaultByteOrder _ => 3
  | .DefaultBitOrder _ => 4
  | .RegisterAddressType _ => 5
  | .CommandAddressType _ => 6
  | .BufferAddressType _ => 7
  | .NameCase _ => 8

/-- Discriminant equality of two global config options. -/
def sameKind (a b : dsl_hir.GlobalConfig) : Bool :=
  kindIndex a == kindIndex b

/-- The `match config` body of the global-config fold: assign the option's
value into the struct (fallibly for the address types). -/
def apply_config (global_config : mir.GlobalConfig) :
    dsl_hir.GlobalConfig → Except TError mir.GlobalConfig
  | .DefaultRegisterAccess value =>
    .ok { global_config with default_register_access := access_from value }
  | .DefaultFieldAccess value =>
    .ok { global_config with default_field_access := access_from value }
  | .DefaultBufferAccess value =>
    .ok { global_config with default_buffer_access := access_from value }
  | .DefaultByteOrder value =>
    .ok { global_config with default_byte_order := byte_order_from value }
  | .DefaultBitOrder value =>
    .ok { global_config with default_bit_order := bit_order_from value }
  | .RegisterAddressType value =>
    match integer_try_from value with
    | .error e => .error e
    | .ok i => .ok { global_config with register_address_type := some i }
  | .CommandAddressType value =>
    match integer_try_from value with
    | .error e => .error e
    | .ok i => .ok { global_config with command_address_type := some i }
  | .BufferAddressType value =>
    match integer_try_from value with
    | .error e => .error e
    | .ok i => .ok { global_config with buffer_address_type := some i }
  | .NameCase value =>
    .ok { global_config with name_case := name_case_from value }

/-- The `for config in value.configs.iter()` loop of
`TryFrom<dsl_hir::GlobalConfigList> for mir::GlobalConfig`: before a
config entry is applied, the whole list is scanned for another entry of
the same kind. -/
def global_config_fold (all : List dsl_hir.GlobalConfig) :
    mir.GlobalConfig → List dsl_hir.GlobalConfig → Except TError mir.GlobalConfig
  | global_config, [] => .ok global_config
  | global_config, config :: rest =>
    if 1 < all.countP (fun check_config => sameKind check_config config) then
      .error (.duplicateGlobalConfig config)
    else
      match apply_config global_config config with
      | .error e => .error e
      | .ok global_config => global_config_fold all global_config rest

/-- `impl TryFrom<dsl_hir::GlobalConfigList> for mir::GlobalConfig`. -/
def global_config_try_from (value : dsl_hir.GlobalConfigList) :
    Except TError mir.GlobalConfig :=
  global_config_fold value.configs mir.GlobalConfig.default value.configs

/-- `get_description`: the doc attribute values joined by newlines, `None`
when the result is empty. -/
def get_description (attrs : dsl_hir.AttributeList) : Option String :=
  let str := String.intercalate "\n"
    (attrs.attributes.filterMap fun
      | .Doc val _ => some val
      | .Cfg _ _ => none)
  if str.isEmpty then none else some str

/-- `get_cfg_attr`: zero or one cfg attribute is allowed; two or more is
an error reporting the count. -/
def get_cfg_attr (attrs : dsl_hir.AttributeList) : Except TError (Option String) :=
  let cfg_attrs := attrs.attributes.filterMap fun
    | .Cfg val _ => some val
    | .Doc _ _ => none
  match cfg_attrs with
  | [] => .ok none
  | [c] => .ok (some c)
  | l => .error (.onlyOneCfg l.length)

/-- The body of `transform_field_conversion` for one enum variant. -/
def transform_enum_variant (v : dsl_hir.EnumVariant) : Except TError mir.EnumVariant :=
  match get_cfg_attr v.attribute_list with
  | .error e => .error e
  | .ok cfg_attr =>
    match v.enum_value with
    | none =>
      .ok { cfg_attr, description := (get_description v.attribute_list).getD "",
            name := v.identifier, value := .Unspecified }
    | some (.Specified val) =>
      match base10_parse val with
      | .error e => .error e
      | .ok val =>
        .ok { cfg_attr, description := (get_description v.attribute_list).getD "",
              name := v.identifier, value := .Specified val }
    | some .Default =>
      .ok { cfg_attr, description := (get_description v.attribute_list).getD "",
            name := v.identifier, value := .Default }
    | some .CatchAll =>
      .ok { cfg_attr, description := (get_description v.attribute_list).getD "",
            name := v.identifier, value := .CatchAll }

/-- Rust `str::replace(char::is_whitespace, "")` applied to a path's token
string. -/
def removeWhitespace (s : String) : String :=
  String.mk (s.data.filter fun c => !c.isWhitespace)

/-- `transform_field_conversion`. -/
def transform_field_conversion :
    dsl_hir.FieldConversion → Except TError mir.FieldConversion
  | .Direct path => .ok (.Direct (removeWhitespace path))
  | .Enum identifier enum_variant_list =>
    match enum_variant_list.variants.mapM transform_enum_variant with
    | .error e => .error e
    | .ok variants => .ok (.Enum identifier variants)

/-- `field.field_conversion.as_ref().map(transform_field_conversion).transpose()?`. -/
def transform_field_conversion_opt :
    Option dsl_hir.FieldConversion → Except TError (Option mir.FieldConversion)
  | none => .ok none
  | some fc =>
    match transform_field_conversion fc with
    | .error e => .error e
    | .ok v => .ok (some v)

/-- The `field_address` match of `transform_field`: the single-integer
shorthand is only accepted for bool fields and yields `start..start`;
explicit ranges are parsed, the inclusive form with `end + 1`. -/
def transform_field_address (fa : dsl_hir.FieldAddress) (base_type : dsl_hir.BaseType)
    (identifier : String) : Except TError RustRange :=
  match fa with
  | .Integer start =>
    if base_type.is_bool then
      match base10_parse start with
      | .error e => .error e
      | .ok s => .ok { start := s, end_ := s }
    else
      .error (.nonBoolFieldNeedsRange identifier)
  | .Range start end_ =>
    match base10_parse start with
    | .error e => .error e
    | .ok s =>
      match base10_parse end_ with
      | .error e => .error e
      | .ok e => .ok { start := s, end_ := e }
  | .RangeInclusive start end_ =>
    match base10_parse start with
    | .error e => .error e
    | .ok s =>
      match base10_parse end_ with
      | .error e => .error e
      | .ok e => .ok { start := s, end_ := e + 1 }

/-- `transform_field`, in the evaluation order of the Rust struct
literal: cfg attribute, description, name, access, base type, conversion,
then address. -/
def transform_field (field : dsl_hir.Field) (global_config : mir.GlobalConfig) :
    Except TError mir.Field :=
  match get_cfg_attr field.attribute_list with
  | .error e => .error e
  | .ok cfg_attr =>
    match transform_field_conversion_opt field.field_conversion with
    | .error e => .error e
    | .ok field_conversion =>
      match transform_field_address field.field_address field.base_type field.identifier with
      | .error e => .error e
      | .ok field_address =>
        .ok { cfg_attr,
              description := (get_description field.attribute_list).getD "",
              name := field.identifier,
              access := (field.access.map access_from).getD global_config.default_field_access,
              base_type := base_type_from field.base_type,
              field_conversion, field_address }

/-- `find_map` for the `ADDRESS` command item. -/
def find_address_item (items : List dsl_hir.CommandItem) : Option Nat :=
  items.findSome? fun
    | .Address lit => some lit
    | _ => none

/-- The `address` initializer of `transform_command`: the basic form's
value is the address; the extended form requires an `ADDRESS` item. -/
def command_address (command_value : dsl_hir.CommandValue) (identifier : String) :
    Except TError Nat :=
  match command_value with
  | .Basic lit => base10_parse lit
  | .Extended command_item_list _ _ =>
    match find_address_item command_item_list.items with
    | some lit => base10_parse lit
    | none => .error (.commandMustHaveAddress identifier)

/-- The `byte_order` initializer of `transform_command` (before the
global default is applied). -/
def command_byte_order (command_value : dsl_hir.CommandValue) : Option mir.ByteOrder :=
  match command_value with
  | .Basic _ => none
  | .Extended command_item_list _ _ =>
    command_item_list.items.findSome? fun
      | .ByteOrder o => some (byte_order_from o)
      | _ => none

/-- The `bit_order` initializer of `transform_command` (before the global
default is applied). -/
def command_bit_order (command_value : dsl_hir.CommandValue) : Option mir.BitOrder :=
  match command_value with
  | .Basic _ => none
  | .Extended command_item_list _ _ =>
    command_item_list.items.findSome? fun
      | .BitOrder o => some (bit_order_from o)
      | _ => none

/-- The `size_bits_in` initializer of `transform_command`
(`.unwrap_or(Ok(0))?`). -/
def command_size_bits_in (command_value : dsl_hir.CommandValue) : Except TError Nat :=
  match command_value with
  | .Basic _ => .ok 0
  | .Extended command_item_list _ _ =>
    match command_item_list.items.findSome? (fun
      | .SizeBitsIn lit => some lit
      | _ => none) with
    | none => .ok 0
    | some lit => base10_parse lit

/-- The `size_bits_out` initializer of `transform_command`. -/
def command_size_bits_out (command_value : dsl_hir.CommandValue) : Except TError Nat :=
  match command_value with
  | .Basic _ => .ok 0
  | .Extended command_item_list _ _ =>
    match command_item_list.items.findSome? (fun
      | .SizeBitsOut lit => some lit
      | _ => none) with
    | none => .ok 0
    | some lit => base10_parse lit

/-- The `repeat` initializer of `transform_command` (`.transpose()?`). -/
def command_repeat (command_value : dsl_hir.CommandValue) :
    Except TError (Option mir.Repeat) :=
  match command_value with
  | .Basic _ => .ok none
  | .Extended command_item_list _ _ =>
    match command_item_list.items.findSome? (fun
      | .Repeat r => some r
      | _ => none) with
    | none => .ok none
    | some r =>
      match repeat_try_from r with
      | .error e => .error e
      | .ok v => .ok (some v)

/-- The `in_fields` initializer of `transform_command`. -/
def command_in_fields (command_value : dsl_hir.CommandValue)
    (global_config : mir.GlobalConfig) : Except TError (List mir.Field) :=
  match command_value with
  | .Basic _ => .ok []
  | .Extended _ none _ => .ok []
  | .Extended _ (some in_field_list) _ =>
    in_field_list.fields.mapM (transform_field · global_config)

/-- The `out_fields` initializer of `transform_command`. -/
def command_out_fields (command_value : dsl_hir.CommandValue)
    (global_config : mir.GlobalConfig) : Except TError (List mir.Field) :=
  match command_value with
  | .Basic _ => .ok []
  | .Extended _ _ none => .ok []
  | .Extended _ _ (some out_field_list) =>
    out_field_list.fields.mapM (transform_field · global_config)

/-- `transform_command`: the missing-value check runs first, then the
struct-literal initializers in source order. -/
def transform_command (command : dsl_hir.Command) (global_config : mir.GlobalConfig) :
    Except TError mir.Command :=
  match command.value with
  | none => .error (.commandMustHaveValue command.identifier)
  | some command_value =>
    match get_cfg_attr command.attribute_list with
    | .error e => .error e
    | .ok cfg_attr =>
      match command_address command_value command.identifier with
      | .error e => .error e
      | .ok address =>
        match command_size_bits_in command_value with
        | .error e => .error e
        | .ok size_bits_in =>
          match command_size_bits_out command_value with
          | .error e => .error e
          | .ok size_bits_out =>
            match command_repeat command_value with
            | .error e => .error e
            | .ok repeat_ =>
              match command_in_fields command_value global_config with
              | .error e => .error e
              | .ok in_fields =>
                match command_out_fields command_value global_config with
                | .error e => .error e
                | .ok out_fields =>
                  .ok { cfg_attr,
                        description := (get_description command.attribute_list).getD "",
                        name := command.identifier,
                        address,
                        byte_order := (command_byte_order command_value).getD
                          global_config.default_byte_order,
                        bit_order := (command_bit_order command_value).getD
                          global_config.default_bit_order,
                        size_bits_in, size_bits_out, repeat_, in_fields, out_fields }

/-- `transform_buffer`. -/
def transform_buffer (buffer : dsl_hir.Buffer) (global_config : mir.GlobalConfig) :
    Except TError mir.Buffer :=
  match get_cfg_attr buffer.attribute_list with
  | .error e => .error e
  | .ok cfg_attr =>
    match buffer.address with
    | none => .error (.bufferMustHaveAddress buffer.identifier)
    | some lit =>
      match base10_parse lit with
      | .error e => .error e
      | .ok address =>
        .ok { cfg_attr,
              description := (get_description buffer.attribute_list).getD "",
              name := buffer.identifier,
              access := (buffer.access.map access_from).getD
                global_config.default_buffer_access,
              address }

/-- The `address` initializer of `transform_command_override`. -/
def command_override_address (value : Option dsl_hir.CommandValue) :
    Except TError (Option Nat) :=
  match value with
  | none => .ok none
  | some (.Basic lit) =>
    match base10_parse lit with
    | .error e => .error e
    | .ok v => .ok (some v)
  | some (.Extended command_item_list _ _) =>
    match find_address_item command_item_list.items with
    | none => .ok none
    | some lit =>
      match base10_parse lit with
      | .error e => .error e
      | .ok v => .ok (some v)

/-- The optional-field initializers of `transform_command_override` other
than the address, folded into one helper per field. -/
def command_override_size_bits_in (value : Option dsl_hir.CommandValue) :
    Except TError (Option Nat) :=
  match value with
  | none | some (.Basic _) => .ok none
  | some (.Extended command_item_list _ _) =>
    match command_item_list.items.findSome? (fun
      | .SizeBitsIn lit => some lit
      | _ => none) with
    | none => .ok none
    | some lit =>
      match base10_parse lit with
      | .error e => .error e
      | .ok v => .ok (some v)

/-- `size_bits_out` of `transform_command_override`. -/
def command_override_size_bits_out (value : Option dsl_hir.CommandValue) :
    Except TError (Option Nat) :=
  match value with
  | none | some (.Basic _) => .ok none
  | some (.Extended command_item_list _ _) =>
    match command_item_list.items.findSome? (fun
      | .SizeBitsOut lit => some lit
      | _ => none) with
    | none => .ok none
    | some lit =>
      match base10_parse lit with
      | .error e => .error e
      | .ok v => .ok (some v)

/-- `repeat` of `transform_command_override`. -/
def command_override_repeat (value : Option dsl_hir.CommandValue) :
    Except TError (Option mir.Repeat) :=
  match value with
  | none | some (.Basic _) => .ok none
  | some (.Extended command_item_list _ _) =>
    match command_item_list.items.findSome? (fun
      | .Repeat r => some r
      | _ => none) with
    | none => .ok none
    | some r =>
      match repeat_try_from r with
      | .error e => .error e
      | .ok v => .ok (some v)

/-- `in_fields` of `transform_command_override`. -/
def command_override_in_fields (value : Option dsl_hir.CommandValue)
    (global_config : mir.GlobalConfig) : Except TError (Option (List mir.Field)) :=
  match value with
  | none | some (.Basic _) => .ok none
  | some (.Extended _ none _) => .ok none
  | some (.Extended _ (some in_field_list) _) =>
    match in_field_list.fields.mapM (transform_field · global_config) with
    | .error e => .error e
    | .ok fields => .ok (some fields)

/-- `out_fields` of `transform_command_override`. -/
def command_override_out_fields (value : Option dsl_hir.CommandValue)
    (global_config : mir.GlobalConfig) : Except TError (Option (List mir.Field)) :=
  match value with
  | none | some (.Basic _) => .ok none
  | some (.Extended _ _ none) => .ok none
  | some (.Extended _ _ (some out_field_list)) =>
    match out_field_list.fields.mapM (transform_field · global_config) with
    | .error e => .error e
    | .ok fields => .ok (some fields)

/-- `transform_command_override`. -/
def transform_command_override (command_override : dsl_hir.Command)
    (global_config : mir.GlobalConfig) : Except TError mir.CommandOverride :=
  match command_override_address command_override.value with
  | .error e => .error e
  | .ok address =>
    match command_override_size_bits_in command_override.value with
    | .error e => .error e
    | .ok size_bits_in =>
      match command_override_size_bits_out command_override.value with
      | .error e => .error e
      | .ok size_bits_out =>
        match command_override_repeat command_override.value with
        | .error e => .error e
        | .ok repeat_ =>
          match command_override_in_fields command_override.value global_config with
          | .error e => .error e
          | .ok in_fields =>
            match command_override_out_fields command_override.value global_config with
            | .error e => .error e
            | .ok out_fields =>
              .ok { name := command_override.identifier,
                    address,
                    byte_order := match command_override.value with
                      | none | some (.Basic _) => none
                      | some (.Extended command_item_list _ _) =>
                        command_item_list.items.findSome? fun
                          | .ByteOrder o => some (byte_order_from o)
                          | _ => none,
                    bit_order := match command_override.value with
                      | none | some (.Basic _) => none
                      | some (.Extended command_item_list _ _) =>
                        command_item_list.items.findSome? fun
                          | .BitOrder o => some (bit_order_from o)
                          | _ => none,
                    size_bits_in, size_bits_out, repeat_, in_fields, out_fields }

/-- `transform_block_override`: the body is `todo!()`, which panics. -/
def transform_block_override (_attribute_list : dsl_hir.AttributeList)
    (_identifier : String) (_block_item_list : List dsl_hir.BlockItem)
    (_object_list : List dsl_hir.Object) : TResult mir.BlockOverride :=
  .panics

/-- `transform_register_override`: the body is `todo!()`, which panics. -/
def transform_register_override (_attribute_list : dsl_hir.AttributeList)
    (_identifier : String) (_register_item_list : List dsl_hir.RegisterItem)
    (_field_list : dsl_hir.FieldList) : TResult mir.RegisterOverride :=
  .panics

/-- `transform_buffer_override`: the body is `todo!()`, which panics. -/
def transform_buffer_override (_buffer_override : dsl_hir.Buffer) :
    TResult mir.BufferOverride :=
  .panics

/-- `transform_ref`: cfg attribute first (struct-literal order), then the
target match; a ref target that is itself a ref is an error naming the
ref; block/register/buffer targets reach `todo!()` overrides. -/
def transform_ref (attribute_list : dsl_hir.AttributeList) (identifier : String)
    (object : dsl_hir.Object) (global_config : mir.GlobalConfig) :
    TResult mir.RefObject :=
  (liftE (get_cfg_attr attribute_list)).bind fun cfg_attr =>
    (match object with
      | .Block al id bil ol =>
        (transform_block_override al id bil ol).map mir.ObjectOverride.Block
      | .Register al id ril fl =>
        (transform_register_override al id ril fl).map mir.ObjectOverride.Register
      | .Command c =>
        (liftE (transform_command_override c global_config)).map mir.ObjectOverride.Command
      | .Buffer b =>
        (transform_buffer_override b).map mir.ObjectOverride.Buffer
      | .Ref _ _ _ => .err (.refToRef identifier)).bind fun obj =>
      .ok { cfg_attr,
            description := (get_description attribute_list).getD "",
            name := identifier,
            object := obj }

/-- One arm of the `for object in list` match in `transform_object_list`:
`Block` and `Register` objects hit `todo!()`. -/
def transform_object (object : dsl_hir.Object) (global_config : mir.GlobalConfig) :
    TResult mir.Object :=
  match object with
  | .Block _ _ _ _ => .panics
  | .Register _ _ _ _ => .panics
  | .Command command =>
    (liftE (transform_command command global_config)).map mir.Object.Command
  | .Buffer buffer =>
    (liftE (transform_buffer buffer global_config)).map mir.Object.Buffer
  | .Ref al id obj => (transform_ref al id obj global_config).map mir.Object.Ref

/-- The loop of `transform_object_list` over the raw object list. -/
def transform_objects (objects : List dsl_hir.Object) (global_config : mir.GlobalConfig) :
    TResult (List mir.Object) :=
  match objects with
  | [] => .ok []
  | object :: rest =>
    (transform_object object global_config).bind fun m =>
      (transform_objects rest global_config).bind fun ms => .ok (m :: ms)

/-- `transform_object_list`. -/
def transform_object_list (list : dsl_hir.ObjectList) (global_config : mir.GlobalConfig) :
    TResult (List mir.Object) :=
  transform_objects list.objects global_config

/-- `transform`: global config first, then the object list. -/
def transform (device : dsl_hir.Device) : TResult mir.Device :=
  (liftE (global_config_try_from device.global_config_list)).bind fun global_config =>
    (transform_object_list device.object_list global_config).bind fun objects =>
      .ok { global_config, objects }

end dsl_hir_mir_transform

namespace ops

/-- Modelled from the spec: the byte of the buffer holding logical bit
`i`, absent `ops` module of the runtime crate. Under little-endian byte
order low-order field bytes sit at low addresses (byte `i / 8`); under
big-endian the byte order is reversed over the `n` bytes of the buffer. -/
def byteIndex : mir.ByteOrder → Nat → Nat → Nat
  | .LE, _, i => i / 8
  | .BE, n, i => n - 1 - i / 8

/-- Modelled from the spec: the significance of logical bit `i` within
its byte, absent `ops` module of the runtime crate. Under LSB0 bit 0 of
the packed form is the least-significant bit of its byte; under MSB0 it
is the most-significant bit. -/
def bitIndex : mir.BitOrder → Nat → Nat
  | .LSB0, i => i % 8
  | .MSB0, i => 7 - i % 8

/-- The byte `x` with the bit of significance `s` replaced by `b`,
expressed arithmetically: bits above `s` and below `s` are kept. -/
def setBitN (x s : Nat) (b : Bool) : Nat :=
  2 ^ (s + 1) * (x / 2 ^ (s + 1)) + ((if b then 1 else 0) * 2 ^ s + x % 2 ^ s)

/-- Logical bit `i` of the buffer, per the active byte-order/bit-order
regime. -/
def getLogicalBit (bo : mir.ByteOrder) (bi : mir.BitOrder) (buf : List Nat)
    (i : Nat) : Bool :=
  (buf.getD (byteIndex bo buf.length i) 0).testBit (bitIndex bi i)

/-- The buffer with logical bit `i` replaced by `b`, per the active
regime. -/
def setLogicalBit (bo : mir.ByteOrder) (bi : mir.BitOrder) (buf : List Nat)
    (i : Nat) (b : Bool) : List Nat :=
  let bIdx := byteIndex bo buf.length i
  buf.set bIdx (setBitN (buf.getD bIdx 0) (bitIndex bi i) b)

/-- Modelled from the spec: extract the `len`-bit unsigned value whose
bit `k` is logical bit `start + k` of the buffer ("a load operation
extracts the `end-start`-bit unsigned value spanning the given bit range
from the byte buffer per the active regime"). -/
def loadBits (bo : mir.ByteOrder) (bi : mir.BitOrder) (buf : List Nat)
    (start : Nat) : Nat → Nat
  | 0 => 0
  | len + 1 =>
    (if getLogicalBit bo bi buf start then 1 else 0) +
      2 * loadBits bo bi buf (start + 1) len

/-- Modelled from the spec: write bit `k` of `v` to logical bit
`start + k` of the buffer for `k < len`, a masked read-modify-write
leaving all other bits untouched. -/
def storeBits (bo : mir.ByteOrder) (bi : mir.BitOrder) (v : Nat) (start : Nat) :
    Nat → List Nat → List Nat
  | 0, buf => buf
  | len + 1, buf =>
    storeBits bo bi (v / 2) (start + 1) len (setLogicalBit bo bi buf start (v.testBit 0))

/-- Modelled from the spec: `ops::load_lsb0::<T, BO>(bits, start, end)`
of the runtime crate (absent from the sources), at the raw unsigned
level. -/
def load_lsb0 (bo : mir.ByteOrder) (bits : List Nat) (start_bit end_bit : Nat) : Nat :=
  loadBits bo .LSB0 bits start_bit (end_bit - start_bit)

/-- Modelled from the spec: `ops::load_msb0::<T, BO>(bits, start, end)`. -/
def load_msb0 (bo : mir.ByteOrder) (bits : List Nat) (start_bit end_bit : Nat) : Nat :=
  loadBits bo .MSB0 bits start_bit (end_bit - start_bit)

/-- Modelled from the spec: `ops::store_lsb0::<T, BO>(raw, start, end, bits)`. -/
def store_lsb0 (bo : mir.ByteOrder) (raw : Nat) (start_bit end_bit : Nat)
    (bits : List Nat) : List Nat :=
  storeBits bo .LSB0 raw start_bit (end_bit - start_bit) bits

/-- Modelled from the spec: `ops::store_msb0::<T, BO>(raw, start, end, bits)`. -/
def store_msb0 (bo : mir.ByteOrder) (raw : Nat) (start_bit end_bit : Nat)
    (bits : List Nat) : List Nat :=
  storeBits bo .MSB0 raw start_bit (end_bit - start_bit) bits

end ops

namespace field_set_transform

/-- The four-way match of `get_read_function` in
`field_set_transform.rs` selecting the load operation for the regime. -/
def selected_load_function (byte_order : mir.ByteOrder) (bit_order : mir.BitOrder) :
    List Nat → Nat → Nat → Nat :=
  match byte_order, bit_order with
  | .LE, .LSB0 => ops.load_lsb0 .LE
  | .LE, .MSB0 => ops.load_msb0 .LE
  | .BE, .LSB0 => ops.load_lsb0 .BE
  | .BE, .MSB0 => ops.load_msb0 .BE

/-- The four-way match of `get_write_function` selecting the store
operation for the regime. -/
def selected_store_function (byte_order : mir.ByteOrder) (bit_order : mir.BitOrder) :
    Nat → Nat → Nat → List Nat → List Nat :=
  match byte_order, bit_order with
  | .LE, .LSB0 => ops.store_lsb0 .LE
  | .LE, .MSB0 => ops.store_msb0 .LE
  | .BE, .LSB0 => ops.store_lsb0 .BE
  | .BE, .MSB0 => ops.store_msb0 .BE

end field_set_transform

namespace lir

/-- `lir::ConversionMethod` as matched by the field-set generator. -/
inductive ConversionMethod where
  | None
  | Into (conversion_type : String)
  | UnsafeInto (conversion_type : String)
  | TryInto (conversion_type : String)
  | Bool
deriving DecidableEq

/-- `lir::Field`. Attribute token streams are modelled as strings;
`address` is the `Range<Literal>` bit range. -/
structure Field where
  cfg_attr : String
  doc_attr : String
  name : String
  address : RustRange
  base_type : String
  conversion_method : ConversionMethod
  access : mir.Access
deriving DecidableEq

/-- `lir::FieldSet`. -/
structure FieldSet where
  cfg_attr : String
  doc_attr : String
  name : String
  byte_order : mir.ByteOrder
  bit_order : mir.BitOrder
  size_bits : Nat
  reset_value : List Nat
  ref_reset_overrides : List (String × List Nat)
  fields : List Field
deriving DecidableEq

end lir

namespace field_set_transform

/-- The denotation of the tokens emitted by `get_read_function` for one
field: the function's name, the selected regime and type parameters, the
bit range passed to the load call, and the applied conversion. -/
structure GeneratedReadFunction where
  name : String
  byte_order : mir.ByteOrder
  bit_order : mir.BitOrder
  base_type : String
  start_bit : Nat
  end_bit : Nat
  conversion_method : lir.ConversionMethod
deriving DecidableEq

/-- The denotation of the tokens emitted by `get_write_function` for one
field. -/
structure GeneratedWriteFunction where
  name : String
  byte_order : mir.ByteOrder
  bit_order : mir.BitOrder
  base_type : String
  start_bit : Nat
  end_bit : Nat
  conversion_method : lir.ConversionMethod
deriving DecidableEq

/-- `get_read_function`: emitted only when the field's access permits
reading (`RW` or `RO`); otherwise the emitted token stream is empty,
modelled as `none`. -/
def get_read_function (field : lir.Field) (byte_order : mir.ByteOrder)
    (bit_order : mir.BitOrder) : Option GeneratedReadFunction :=
  match field.access with
  | .RW | .RO =>
    some { name := field.name, byte_order, bit_order,
           base_type := field.base_type,
           start_bit := field.address.start, end_bit := field.address.end_,
           conversion_method := field.conversion_method }
  | _ => none

/-- `get_write_function`: emitted only when the field's access permits
writing (`RW` or `WO`); the function is named `set_{name}`. -/
def get_write_function (field : lir.Field) (byte_order : mir.ByteOrder)
    (bit_order : mir.BitOrder) : Option GeneratedWriteFunction :=
  match field.access with
  | .RW | .WO =>
    some { name := "set_" ++ field.name, byte_order, bit_order,
           base_type := field.base_type,
           start_bit := field.address.start, end_bit := field.address.end_,
           conversion_method := field.conversion_method }
  | _ => none

/-- The denotation of the token stream emitted by `generate_field_set`
for one field set: the struct (name and buffer size), the constructors
(`new`, `new_zero`, and one `new_as_*` per ref reset override, each with
the byte array it loads), and the accessor functions. Documentation,
cfg plumbing and the trait/operator impls carry no layout content and
are not modelled. The `new_as_*` constructor identifiers are derived
from the ref name by the external `convert_case` crate; the pair stores
the ref name itself. -/
structure GeneratedFieldSet where
  name : String
  size_bits : Nat
  size_bytes : Nat
  new_bits : List Nat
  new_zero_bits : List Nat
  ref_constructors : List (String × List Nat)
  read_functions : List GeneratedReadFunction
  write_functions : List GeneratedWriteFunction
deriving DecidableEq

/-- `generate_field_set`: a zero-size field set generates nothing at all
(the function returns an empty token stream, modelled as `none`);
otherwise the struct holds `size_bits.div_ceil(8)` bytes. -/
def generate_field_set (value : lir.FieldSet) : Option GeneratedFieldSet :=
  if value.size_bits = 0 then
    none
  else
    some { name := value.name,
           size_bits := value.size_bits,
           size_bytes := (value.size_bits + 7) / 8,
           new_bits := value.reset_value,
           new_zero_bits := List.replicate ((value.size_bits + 7) / 8) 0,
           ref_constructors := value.ref_reset_overrides.map
             (fun p => ("new_as_" ++ p.1, p.2)),
           read_functions := value.fields.filterMap
             (fun f => get_read_function f value.byte_order value.bit_order),
           write_functions := value.fields.filterMap
             (fun f => get_write_function f value.byte_order value.bit_order) }

end field_set_transform

namespace ll_register

/-- `ll::register::RegisterError`. -/
inductive RegisterError (IE : Type) where
  | InvalidValue
  | HardwareError (e : IE)

/-- `ll::register::RegisterInterface`: reads fill a caller-supplied byte
buffer, writes send one; `&mut self` is modelled by threading a state. -/
structure RegisterInterface (Address State IError : Type) where
  read_register : State → Address → List Nat → Except IError (List Nat) × State
  write_register : State → Address → List Nat → Except IError Unit × State

/-- The access specifier accepted by the `implement_reg_accessor`
macro. -/
inductive AccessSpecifier where
  | RO
  | WO
  | RW
deriving DecidableEq

/-- The accessor operations the macro can emit. -/
inductive AccessorOp where
  | read
  | write
  | modify
deriving DecidableEq

/-- The operations emitted by `implement_reg_accessor` per access
specifier: `RO` emits `read`, `WO` emits `write`, and `RW` expands both
arms and additionally emits `modify`. -/
def implement_reg_accessor : AccessSpecifier → List AccessorOp
  | .RO => [.read]
  | .WO => [.write]
  | .RW => [.read, .write, .modify]

/-- The `read` accessor: start from a zeroed buffer of the register's
size, let the interface fill it, wrap interface errors. -/
def read {A S E : Type} (i : RegisterInterface A S E) (address : A) (size : Nat)
    (s : S) : Except (RegisterError E) (List Nat) × S :=
  match i.read_register s address (List.replicate size 0) with
  | (.ok bytes, s') => (.ok bytes, s')
  | (.error e, s') => (.error (.HardwareError e), s')

/-- The `write` accessor: apply the caller's closure to a zeroed buffer
and send the result to the interface. -/
def write {A S E : Type} (i : RegisterInterface A S E) (address : A) (size : Nat)
    (f : List Nat → List Nat) (s : S) : Except (RegisterError E) Unit × S :=
  match i.write_register s address (f (List.replicate size 0)) with
  | (.ok _, s') => (.ok (), s')
  | (.error e, s') => (.error (.HardwareError e), s')

/-- The `modify` accessor (emitted only in the `RW` arm): read, hand the
read value to the closure as both `R` and `W` (the `W` is a clone of the
read bytes), write the closure's result back. -/
def modify {A S E : Type} (i : RegisterInterface A S E) (address : A) (size : Nat)
    (f : List Nat → List Nat → List Nat) (s : S) : Except (RegisterError E) Unit × S :=
  match read i address size s with
  | (.ok r, s') => write i address size (fun _ => f r r) s'
  | (.error e, s') => (.error e, s')

/-- An event on the hardware interface: one register read or one register
write. -/
inductive RegEvent where
  | read (address : Nat)
  | write (address : Nat) (value : List Nat)

/-- A reference interface for observing traces: a memory of register
values plus a log of every interface call. -/
structure LogState where
  mem : Nat → List Nat
  log : List RegEvent

/-- The reference interface: reads return the stored bytes, writes
replace them; every call is appended to the log and none fails. -/
def log_interface : RegisterInterface Nat LogState Empty where
  read_register := fun s a _buf =>
    (.ok (s.mem a), { s with log := s.log ++ [.read a] })
  write_register := fun s a v =>
    (.ok (), { mem := fun x => if x = a then v else s.mem x,
               log := s.log ++ [.write a v] })

end ll_register

/-- The objects on which the resolver reaches no `todo!()` site:
commands, buffers, and refs whose target is a command (resolved) or
another ref (rejected with an error before any override is visited). -/
def dsl_hir.Object.no_todo : dsl_hir.Object → Bool
  | .Command _ => true
  | .Buffer _ => true
  | .Ref _ _ (.Command _) => true
  | .Ref _ _ (.Ref _ _ _) => true
  | _ => false

/-- Whether some option kind occurs more than once in a global config
list (the duplicate condition tested inside the fold). -/
def dsl_hir_mir_transform.hasDuplicateKind (l : List dsl_hir.GlobalConfig) : Bool :=
  l.any fun config =>
    decide (1 < l.countP fun check_config => dsl_hir_mir_transform.sameKind check_config config)

/-- Whether a single global config entry resolves on its own: address
type entries must name one of the ten integer types, every other kind
always resolves. -/
def dsl_hir_mir_transform.config_valid : dsl_hir.GlobalConfig → Bool
  | .RegisterAddressType s => (dsl_hir_mir_transform.integer_try_from s).isOk
  | .CommandAddressType s => (dsl_hir_mir_transform.integer_try_from s).isOk
  | .BufferAddressType s => (dsl_hir_mir_transform.integer_try_from s).isOk
  | _ => true

/-- A generated field set with its ref-override constructors removed:
used to state that everything else the generator emits is independent of
the ref reset overrides. -/
def field_set_transform.eraseRefConstructors
    (g : field_set_transform.GeneratedFieldSet) : field_set_transform.GeneratedFieldSet :=
  { g with ref_constructors := [] }

namespace ops

theorem inner_lt (x s : Nat) (b : Bool) :
    (if b then 1 else 0) * 2 ^ s + x % 2 ^ s < 2 ^ (s + 1) := by
  have h1 : x % 2 ^ s < 2 ^ s := Nat.mod_lt _ (Nat.two_pow_pos s)
  have h2 : 2 ^ (s + 1) = 2 ^ s * 2 := Nat.pow_succ ..
  cases b <;> simp <;> omega

theorem testBit_setBitN (x s t : Nat) (b : Bool) :
    (setBitN x s b).testBit t = if t = s then b else x.testBit t := by
  have hc := inner_lt x s b
  have hr : x % 2 ^ s < 2 ^ s := Nat.mod_lt _ (Nat.two_pow_pos s)
  unfold setBitN
  rw [Nat.testBit_mul_pow_two_add _ hc t]
  rcases Nat.lt_trichotomy t s with ht | ht | ht
  · rw [if_pos (by omega : t < s + 1), if_neg (by omega : ¬ t = s),
      Nat.mul_comm (if b then 1 else 0) (2 ^ s),
      Nat.testBit_mul_pow_two_add _ hr t, if_pos ht, Nat.testBit_mod_two_pow]
    simp [ht]
  · subst ht
    rw [if_pos (by omega : t < t + 1), if_pos rfl,
      Nat.mul_comm (if b then 1 else 0) (2 ^ t),
      Nat.testBit_mul_pow_two_add _ hr t, if_neg (lt_irrefl t), Nat.sub_self]
    cases b <;> simp
  · rw [if_neg (by omega : ¬ t < s + 1), if_neg (by omega : ¬ t = s),
      ← Nat.shiftRight_eq_div_pow, Nat.testBit_shiftRight]
    congr 1
    omega

theorem getD_set_self (l : List Nat) (i x : Nat) (h : i < l.length) :
    (l.set i x).getD i 0 = x := by
  simp [List.getD_eq_getElem?_getD, List.getElem?_set_self h]

theorem getD_set_ne (l : List Nat) (i j x : Nat) (h : i ≠ j) :
    (l.set i x).getD j 0 = l.getD j 0 := by
  simp [List.getD_eq_getElem?_getD, List.getElem?_set_ne h]

theorem byteIndex_lt (bo : mir.ByteOrder) (n i : Nat) (h : i < 8 * n) :
    byteIndex bo n i < n := by
  cases bo <;> simp [byteIndex] <;> omega

theorem pos_inj (bo : mir.ByteOrder) (bi : mir.BitOrder) (n i j : Nat)
    (hi : i < 8 * n) (hj : j < 8 * n) (hne : i ≠ j)
    (hbyte : byteIndex bo n i = byteIndex bo n j) : bitIndex bi i ≠ bitIndex bi j := by
  cases bo <;> cases bi <;> simp [byteIndex, bitIndex] at hbyte ⊢ <;> omega

theorem length_setLogicalBit (bo : mir.ByteOrder) (bi : mir.BitOrder)
    (buf : List Nat) (i : Nat) (b : Bool) :
    (setLogicalBit bo bi buf i b).length = buf.length := by
  simp [setLogicalBit]

theorem getLogicalBit_setLogicalBit_self (bo : mir.ByteOrder) (bi : mir.BitOrder)
    (buf : List Nat) (i : Nat) (b : Bool) (h : i < 8 * buf.length) :
    getLogicalBit bo bi (setLogicalBit bo bi buf i b) i = b := by
  unfold getLogicalBit setLogicalBit
  rw [List.length_set]
  rw [getD_set_self _ _ _ (byteIndex_lt bo buf.length i h), testBit_setBitN]
  simp

theorem getLogicalBit_setLogicalBit_ne (bo : mir.ByteOrder) (bi : mir.BitOrder)
    (buf : List Nat) (i j : Nat) (b : Bool) (hi : i < 8 * buf.length)
    (hj : j < 8 * buf.length) (hne : i ≠ j) :
    getLogicalBit bo bi (setLogicalBit bo bi buf i b) j = getLogicalBit bo bi buf j := by
  unfold getLogicalBit setLogicalBit
  rw [List.length_set]
  by_cases hb : byteIndex bo buf.length i = byteIndex bo buf.length j
  · rw [← hb, getD_set_self _ _ _ (byteIndex_lt bo buf.length i hi), testBit_setBitN,
      if_neg (Ne.symm (pos_inj bo bi buf.length i j hi hj hne hb)), hb]
  · rw [getD_set_ne _ _ _ _ hb]

theorem length_storeBits (bo : mir.ByteOrder) (bi : mir.BitOrder) :
    ∀ (len start v : Nat) (buf : List Nat),
      (storeBits bo bi v start len buf).length = buf.length := by
  intro len
  induction len with
  | zero => intro start v buf; rfl
  | succ l ih =>
    intro start v buf
    rw [storeBits, ih, length_setLogicalBit]

theorem getLogicalBit_storeBits_outside (bo : mir.ByteOrder) (bi : mir.BitOrder) :
    ∀ (len start v : Nat) (buf : List Nat) (j : Nat),
      start + len ≤ 8 * buf.length → j < 8 * buf.length →
      (j < start ∨ start + len ≤ j) →
      getLogicalBit bo bi (storeBits bo bi v start len buf) j = getLogicalBit bo bi buf j := by
  intro len
  induction len with
  | zero => intro start v buf j _ _ _; rfl
  | succ l ih =>
    intro start v buf j hlen hj hout
    rw [storeBits]
    have hlb := length_setLogicalBit bo bi buf start (v.testBit 0)
    rw [ih (start + 1) (v / 2) _ j (by rw [hlb]; omega) (by rw [hlb]; omega)
      (by omega)]
    exact getLogicalBit_setLogicalBit_ne bo bi buf start j _ (by omega) hj (by omega)

theorem loadBits_storeBits (bo : mir.ByteOrder) (bi : mir.BitOrder) :
    ∀ (len start v : Nat) (buf : List Nat),
      start + len ≤ 8 * buf.length → v < 2 ^ len →
      loadBits bo bi (storeBits bo bi v start len buf) start len = v := by
  intro len
  induction len with
  | zero => intro start v buf _ hv; simp [loadBits, storeBits]; omega
  | succ l ih =>
    intro start v buf hlen hv
    rw [storeBits, loadBits]
    have hlb := length_setLogicalBit bo bi buf start (v.testBit 0)
    have hfr := getLogicalBit_storeBits_outside bo bi l (start + 1) (v / 2)
      (setLogicalBit bo bi buf start (v.testBit 0)) start
      (by rw [hlb]; omega) (by rw [hlb]; omega) (by omega)
    rw [hfr, getLogicalBit_setLogicalBit_self bo bi buf start _ (by omega)]
    have hv2 : v / 2 < 2 ^ l := by
      have : 2 ^ (l + 1) = 2 ^ l * 2 := Nat.pow_succ ..
      omega
    rw [ih (start + 1) (v / 2) _ (by rw [hlb]; omega) hv2]
    rcases Nat.mod_two_eq_zero_or_one v with h | h <;>
      simp [Nat.testBit_zero, h] <;> omega

end ops

theorem selected_load_function_eq (bo : mir.ByteOrder) (bi : mir.BitOrder)
    (buf : List Nat) (start_bit end_bit : Nat) :
    field_set_transform.selected_load_function bo bi buf start_bit end_bit =
      ops.loadBits bo bi buf start_bit (end_bit - start_bit) := by
  cases bo <;> cases bi <;> rfl

theorem selected_store_function_eq (bo : mir.ByteOrder) (bi : mir.BitOrder)
    (raw start_bit end_bit : Nat) (buf : List Nat) :
    field_set_transform.selected_store_function bo bi raw start_bit end_bit buf =
      ops.storeBits bo bi raw start_bit (end_bit - start_bit) buf := by
  cases bo <;> cases bi <;> rfl

/-- C1: for every field bit range `[start, end_)` inside the buffer and
every value `v` representable in the field's bit width, loading the
range after storing `v` into it returns `v`, under each of the four
byte-order/bit-order regimes selected by the generated accessors. -/
theorem round_trip_all_regimes (byte_order : mir.ByteOrder) (bit_order : mir.BitOrder)
    (buf : List Nat) (start_bit end_bit v : Nat) (h1 : start_bit ≤ end_bit)
    (h2 : end_bit ≤ 8 * buf.length) (h3 : v < 2 ^ (end_bit - start_bit)) :
    field_set_transform.selected_load_function byte_order bit_order
      (field_set_transform.selected_store_function byte_order bit_order v
        start_bit end_bit buf) start_bit end_bit = v := by
  rw [selected_load_function_eq, selected_store_function_eq]
  exact ops.loadBits_storeBits byte_order bit_order (end_bit - start_bit) start_bit v buf
    (by omega) h3

theorem round_trip_all_regimes_witness :
    1 ≤ 16 ∧ 16 ≤ 8 * ([0, 0, 0] : List Nat).length ∧ 12345 < 2 ^ (16 - 1) ∧
      field_set_transform.selected_load_function .LE .LSB0
        (field_set_transform.selected_store_function .LE .LSB0 12345 1 16 [0, 0, 0])
        1 16 = 12345 :=
  ⟨by decide, by decide, by decide,
    round_trip_all_regimes .LE .LSB0 [0, 0, 0] 1 16 12345 (by decide) (by decide)
      (by decide)⟩

/-- C2: storing a value into the bit range `[start, end_)` changes no
logical bit of the buffer outside that range (and preserves the buffer's
byte length), under every byte-order/bit-order regime. -/
theorem store_non_disturbance (byte_order : mir.ByteOrder) (bit_order : mir.BitOrder)
    (buf : List Nat) (v start_bit end_bit j : Nat) (h1 : start_bit ≤ end_bit)
    (h2 : end_bit ≤ 8 * buf.length) (hj : j < 8 * buf.length)
    (hout : j < start_bit ∨ end_bit ≤ j) :
    ops.getLogicalBit byte_order bit_order
        (field_set_transform.selected_store_function byte_order bit_order v
          start_bit end_bit buf) j = ops.getLogicalBit byte_order bit_order buf j ∧
      (field_set_transform.selected_store_function byte_order bit_order v
        start_bit end_bit buf).length = buf.length := by
  rw [selected_store_function_eq]
  exact ⟨ops.getLogicalBit_storeBits_outside byte_order bit_order (end_bit - start_bit)
      start_bit v buf j (by omega) hj (by omega),
    ops.length_storeBits byte_order bit_order (end_bit - start_bit) start_bit v buf⟩

theorem store_non_disturbance_witness :
    2 ≤ 6 ∧ 6 ≤ 8 * ([255, 170] : List Nat).length ∧ 1 < 8 * ([255, 170] : List Nat).length ∧
      ((1 : Nat) < 2 ∨ (6 : Nat) ≤ 1) ∧
      (ops.getLogicalBit .BE .MSB0
          (field_set_transform.selected_store_function .BE .MSB0 3 2 6 [255, 170]) 1 =
          ops.getLogicalBit .BE .MSB0 [255, 170] 1 ∧
        (field_set_transform.selected_store_function .BE .MSB0 3 2 6 [255, 170]).length =
          ([255, 170] : List Nat).length) :=
  ⟨by decide, by decide, by decide, by decide,
    store_non_disturbance .BE .MSB0 [255, 170] 3 2 6 1 (by decide) (by decide) (by decide)
      (by decide)⟩

/-- C10: a field set of bit size 0 generates nothing at all (the emitted
token stream is empty: no struct, no constructors, no accessors); a
field set of positive bit size generates a struct whose byte buffer
holds `ceil(size_bits / 8)` bytes. -/
theorem zero_size_field_set (fs : lir.FieldSet) :
    (fs.size_bits = 0 → field_set_transform.generate_field_set fs = none) ∧
    (0 < fs.size_bits →
      (field_set_transform.generate_field_set fs).map
        (fun g => g.size_bytes) = some ((fs.size_bits + 7) / 8)) := by
  constructor
  · intro h
    simp [field_set_transform.generate_field_set, h]
  · intro h
    have hne : ¬ fs.size_bits = 0 := by omega
    simp [field_set_transform.generate_field_set, hne]

theorem zero_size_field_set_witness :
    (⟨"", "", "R", .LE, .LSB0, 0, [], [], []⟩ : lir.FieldSet).size_bits = 0 ∧
    field_set_transform.generate_field_set ⟨"", "", "R", .LE, .LSB0, 0, [], [], []⟩ = none ∧
    0 < (⟨"", "", "S", .LE, .LSB0, 20, [1, 2, 3], [], []⟩ : lir.FieldSet).size_bits ∧
    (field_set_transform.generate_field_set
        ⟨"", "", "S", .LE, .LSB0, 20, [1, 2, 3], [], []⟩).map
      (fun g => g.size_bytes) = some ((20 + 7) / 8) :=
  ⟨rfl, (zero_size_field_set _).1 rfl, by decide, (zero_size_field_set _).2 (by decide)⟩

/-- C8: for every field set of positive size, the generated struct
exposes the base reset constructor `new` loaded with the field set's own
reset bytes and, per ref reset override `(X, bytes)`, one additional
`new_as_*` constructor loaded with `bytes`; every other generated item
is independent of the ref reset overrides (so a ref's layout equals the
base's in all other properties). -/
theorem ref_reset_override_constructors (fs : lir.FieldSet)
    (o2 : List (String × List Nat)) (h : 0 < fs.size_bits) :
    (field_set_transform.generate_field_set fs).map
        (fun g => g.new_bits) = some fs.reset_value ∧
    (field_set_transform.generate_field_set fs).map
        (fun g => g.ref_constructors) =
      some (fs.ref_reset_overrides.map fun p => ("new_as_" ++ p.1, p.2)) ∧
    (field_set_transform.generate_field_set { fs with ref_reset_overrides := o2 }).map
        field_set_transform.eraseRefConstructors =
      (field_set_transform.generate_field_set fs).map
        field_set_transform.eraseRefConstructors := by
  have hne : ¬ fs.size_bits = 0 := by omega
  refine ⟨?_, ?_, ?_⟩ <;>
    simp [field_set_transform.generate_field_set, hne,
      field_set_transform.eraseRefConstructors]

theorem ref_reset_override_constructors_witness :
    0 < (⟨"", "", "S", .BE, .LSB0, 20, [1, 2, 3], [("MyRef", [0, 1, 2])], []⟩ :
        lir.FieldSet).size_bits ∧
    ((field_set_transform.generate_field_set
          ⟨"", "", "S", .BE, .LSB0, 20, [1, 2, 3], [("MyRef", [0, 1, 2])], []⟩).map
        (fun g => g.new_bits) = some [1, 2, 3] ∧
      (field_set_transform.generate_field_set
          ⟨"", "", "S", .BE, .LSB0, 20, [1, 2, 3], [("MyRef", [0, 1, 2])], []⟩).map
        (fun g => g.ref_constructors) =
          some ([("MyRef", [0, 1, 2])].map fun p => ("new_as_" ++ p.1, p.2)) ∧
      (field_set_transform.generate_field_set
          { (⟨"", "", "S", .BE, .LSB0, 20, [1, 2, 3], [("MyRef", [0, 1, 2])], []⟩ :
              lir.FieldSet) with ref_reset_overrides := [] }).map
        field_set_transform.eraseRefConstructors =
          (field_set_transform.generate_field_set
              ⟨"", "", "S", .BE, .LSB0, 20, [1, 2, 3], [("MyRef", [0, 1, 2])], []⟩).map
            field_set_transform.eraseRefConstructors) :=
  ⟨by decide,
    ref_reset_override_constructors
      ⟨"", "", "S", .BE, .LSB0, 20, [1, 2, 3], [("MyRef", [0, 1, 2])], []⟩ [] (by decide)⟩

/-- C9: the `modify` accessor is emitted by `implement_reg_accessor`
exactly for the `RW` access specifier; on the logging reference
interface `modify f` performs precisely one register read followed by
one register write of the closure's result (no other write in between),
and generically `modify` is the composition of `read`, the closure
applied to the read bytes, and `write`, propagating a read error
unchanged. -/
theorem modify_only_rw_and_composes :
    (∀ spec : ll_register.AccessSpecifier,
      ll_register.AccessorOp.modify ∈ ll_register.implement_reg_accessor spec ↔
        spec = .RW) ∧
    (∀ (s : ll_register.LogState) (a size : Nat)
        (f : List Nat → List Nat → List Nat),
      ll_register.modify ll_register.log_interface a size f s =
        (.ok (), { mem := fun x => if x = a then f (s.mem a) (s.mem a) else s.mem x,
                   log := (s.log ++ [.read a]) ++
                     [.write a (f (s.mem a) (s.mem a))] })) ∧
    (∀ (A S E : Type) (i : ll_register.RegisterInterface A S E) (a : A) (size : Nat)
        (f : List Nat → List Nat → List Nat) (s s' : S) (r : List Nat),
      ll_register.read i a size s = (.ok r, s') →
        ll_register.modify i a size f s =
          ll_register.write i a size (fun _ => f r r) s') ∧
    (∀ (A S E : Type) (i : ll_register.RegisterInterface A S E) (a : A) (size : Nat)
        (f : List Nat → List Nat → List Nat) (s s' : S)
        (e : ll_register.RegisterError E),
      ll_register.read i a size s = (.error e, s') →
        ll_register.modify i a size f s = (.error e, s')) := by
  refine ⟨?_, ?_, ?_, ?_⟩
  · intro spec
    cases spec <;> decide
  · intro s a size f
    rfl
  · intro A S E i a size f s s' r h
    simp only [ll_register.modify, h]
  · intro A S E i a size f s s' e h
    simp only [ll_register.modify, h]

theorem modify_only_rw_and_composes_witness :
    ll_register.read ll_register.log_interface 7 1 ⟨fun _ => [5], []⟩ =
      (.ok [5], ⟨fun _ => [5], [.read 7]⟩) ∧
    ll_register.modify ll_register.log_interface 7 1 (fun r _ => r) ⟨fun _ => [5], []⟩ =
      ll_register.write ll_register.log_interface 7 1 (fun _ => [5])
        ⟨fun _ => [5], [.read 7]⟩ :=
  ⟨rfl,
    modify_only_rw_and_composes.2.2.1 Nat ll_register.LogState Empty
      ll_register.log_interface 7 1 (fun r _ => r) ⟨fun _ => [5], []⟩
      ⟨fun _ => [5], [.read 7]⟩ [5] rfl⟩

theorem liftE_ne_panics {α : Type} (e : Except TError α) : liftE e ≠ .panics := by
  cases e <;> simp [liftE]

theorem transform_object_ne_panics (o : dsl_hir.Object) (gc : mir.GlobalConfig)
    (h : o.no_todo = true) :
    dsl_hir_mir_transform.transform_object o gc ≠ .panics := by
  cases o with
  | Block al id bil ol => simp [dsl_hir.Object.no_todo] at h
  | Register al id ril fl => simp [dsl_hir.Object.no_todo] at h
  | Command c =>
    cases hc : dsl_hir_mir_transform.transform_command c gc <;>
      simp [dsl_hir_mir_transform.transform_object, liftE, hc, TResult.map]
  | Buffer b =>
    cases hb : dsl_hir_mir_transform.transform_buffer b gc <;>
      simp [dsl_hir_mir_transform.transform_object, liftE, hb, TResult.map]
  | Ref al id t =>
    cases t with
    | Block a2 b2 c2 d2 => simp [dsl_hir.Object.no_todo] at h
    | Register a2 b2 c2 d2 => simp [dsl_hir.Object.no_todo] at h
    | Buffer b2 => simp [dsl_hir.Object.no_todo] at h
    | Command c2 =>
      cases ha : dsl_hir_mir_transform.get_cfg_attr al with
      | error e =>
        simp [dsl_hir_mir_transform.transform_object,
          dsl_hir_mir_transform.transform_ref, liftE, ha, TResult.bind, TResult.map]
      | ok ca =>
        cases hco : dsl_hir_mir_transform.transform_command_override c2 gc <;>
          simp [dsl_hir_mir_transform.transform_object,
            dsl_hir_mir_transform.transform_ref, liftE, ha, hco, TResult.bind,
            TResult.map]
    | Ref a2 b2 c2 =>
      cases ha : dsl_hir_mir_transform.get_cfg_attr al <;>
        simp [dsl_hir_mir_transform.transform_object,
          dsl_hir_mir_transform.transform_ref, liftE, ha, TResult.bind, TResult.map]

theorem transform_objects_ne_panics (objects : List dsl_hir.Object)
    (gc : mir.GlobalConfig) (h : objects.all dsl_hir.Object.no_todo = true) :
    dsl_hir_mir_transform.transform_objects objects gc ≠ .panics := by
  induction objects with
  | nil => simp [dsl_hir_mir_transform.transform_objects]
  | cons o rest ih =>
    simp only [List.all_cons, Bool.and_eq_true] at h
    have h1 := transform_object_ne_panics o gc h.1
    have h2 := ih h.2
    cases ho : dsl_hir_mir_transform.transform_object o gc with
    | panics => exact absurd ho h1
    | err e => simp [dsl_hir_mir_transform.transform_objects, ho, TResult.bind]
    | ok m =>
      cases hr : dsl_hir_mir_transform.transform_objects rest gc with
      | panics => exact absurd hr h2
      | err e =>
        simp [dsl_hir_mir_transform.transform_objects, ho, hr, TResult.bind]
      | ok ms =>
        simp [dsl_hir_mir_transform.transform_objects, ho, hr, TResult.bind]

/-- C3 (counterexample): `transform_object_list` panics (via `todo!()`)
on a list containing a `Block`, on a list containing a `Register`, and
on a `Ref` whose target is a `Buffer` — so the resolver is not a total
function into model-or-error on those inputs. -/
theorem resolver_panic_counterexample :
    dsl_hir_mir_transform.transform_object_list
        ⟨[dsl_hir.Object.Block ⟨[]⟩ "B" [] []]⟩ mir.GlobalConfig.default = .panics ∧
    dsl_hir_mir_transform.transform_object_list
        ⟨[dsl_hir.Object.Register ⟨[]⟩ "R" [] ⟨[]⟩]⟩ mir.GlobalConfig.default = .panics ∧
    dsl_hir_mir_transform.transform_object_list
        ⟨[dsl_hir.Object.Ref ⟨[]⟩ "R2" (dsl_hir.Object.Buffer ⟨⟨[]⟩, "X", none, some 0⟩)]⟩
        mir.GlobalConfig.default = .panics :=
  ⟨rfl, rfl, rfl⟩

/-- C3 (amended): on object lists free of the unimplemented `todo!()`
paths — no `Block` or `Register` objects, and every `Ref` targeting a
`Command` or another `Ref` — the resolver is total: it returns a model
or an error and never panics. -/
theorem resolver_total_modulo_todo (list : dsl_hir.ObjectList)
    (gc : mir.GlobalConfig) (h : list.objects.all dsl_hir.Object.no_todo = true) :
    dsl_hir_mir_transform.transform_object_list list gc ≠ .panics :=
  transform_objects_ne_panics list.objects gc h

theorem resolver_total_modulo_todo_witness :
    (⟨[dsl_hir.Object.Command ⟨⟨[]⟩, "Foo", some (.Basic 5)⟩,
        dsl_hir.Object.Ref ⟨[]⟩ "R"
          (dsl_hir.Object.Ref ⟨[]⟩ "S" (dsl_hir.Object.Command ⟨⟨[]⟩, "C", none⟩))]⟩ :
      dsl_hir.ObjectList).objects.all dsl_hir.Object.no_todo = true ∧
    dsl_hir_mir_transform.transform_object_list
        ⟨[dsl_hir.Object.Command ⟨⟨[]⟩, "Foo", some (.Basic 5)⟩,
          dsl_hir.Object.Ref ⟨[]⟩ "R"
            (dsl_hir.Object.Ref ⟨[]⟩ "S" (dsl_hir.Object.Command ⟨⟨[]⟩, "C", none⟩))]⟩
        mir.GlobalConfig.default ≠ .panics :=
  ⟨rfl,
    resolver_total_modulo_todo
      ⟨[dsl_hir.Object.Command ⟨⟨[]⟩, "Foo", some (.Basic 5)⟩,
        dsl_hir.Object.Ref ⟨[]⟩ "R"
          (dsl_hir.Object.Ref ⟨[]⟩ "S" (dsl_hir.Object.Command ⟨⟨[]⟩, "C", none⟩))]⟩
      mir.GlobalConfig.default rfl⟩

/-- C4 (counterexample): a bool field declared with the single-integer
shorthand `3` resolves successfully, but its resolved bit range is
`3..3` — under the model's half-open `[start, end_)` ranges that is an
empty range (width `0`), not the one-bit range `3..4` the claim
states. -/
theorem bool_shorthand_counterexample :
    dsl_hir_mir_transform.transform_field
        ⟨⟨[]⟩, "val", none, .Bool, none, .Integer 3⟩ mir.GlobalConfig.default =
      .ok { cfg_attr := none, description := "", name := "val", access := .RW,
            base_type := .Bool, field_conversion := none,
            field_address := ⟨3, 3⟩ } ∧
    (⟨3, 3⟩ : RustRange).end_ - (⟨3, 3⟩ : RustRange).start = 0 ∧
    (⟨3, 3⟩ : RustRange) ≠ ⟨3, 4⟩ :=
  ⟨rfl, rfl, by decide⟩

/-- C4 (amended): for every bool field declared with the single-integer
shorthand `n` (with `n` parseable and the field's attributes and
conversion resolving), resolution succeeds and the resolved field's
range is `n..n` — start and end both equal to `n`, an empty half-open
range marking bit position `n`, rather than the one-bit range
`n..n+1`. -/
theorem bool_shorthand_resolves_to_empty_range (field : dsl_hir.Field)
    (gc : mir.GlobalConfig) (n : Nat) (ca : Option String)
    (fc : Option mir.FieldConversion) (hb : field.base_type = .Bool)
    (ha : field.field_address = .Integer n) (hn : n < 2 ^ 64)
    (hc : dsl_hir_mir_transform.get_cfg_attr field.attribute_list = .ok ca)
    (hf : dsl_hir_mir_transform.transform_field_conversion_opt field.field_conversion =
      .ok fc) :
    dsl_hir_mir_transform.transform_field field gc =
      .ok { cfg_attr := ca,
            description := (dsl_hir_mir_transform.get_description field.attribute_list).getD "",
            name := field.identifier,
            access := (field.access.map dsl_hir_mir_transform.access_from).getD
              gc.default_field_access,
            base_type := .Bool, field_conversion := fc,
            field_address := ⟨n, n⟩ } := by
  simp only [dsl_hir_mir_transform.transform_field, hc, hf,
    dsl_hir_mir_transform.transform_field_address, ha, hb,
    dsl_hir.BaseType.is_bool, dsl_hir.baseTypeIsBool, if_pos,
    dsl_hir_mir_transform.base10_parse, hn, ↓reduceIte,
    dsl_hir_mir_transform.base_type_from]

theorem bool_shorthand_resolves_to_empty_range_witness :
    (⟨⟨[]⟩, "flag", none, .Bool, none, .Integer 7⟩ : dsl_hir.Field).base_type = .Bool ∧
    (⟨⟨[]⟩, "flag", none, .Bool, none, .Integer 7⟩ : dsl_hir.Field).field_address =
      .Integer 7 ∧
    7 < 2 ^ 64 ∧
    dsl_hir_mir_transform.transform_field
        ⟨⟨[]⟩, "flag", none, .Bool, none, .Integer 7⟩ mir.GlobalConfig.default =
      .ok { cfg_attr := none,
            description := (dsl_hir_mir_transform.get_description ⟨[]⟩).getD "",
            name := "flag",
            access := ((none : Option dsl_hir.Access).map
              dsl_hir_mir_transform.access_from).getD
              mir.GlobalConfig.default.default_field_access,
            base_type := .Bool, field_conversion := none,
            field_address := ⟨7, 7⟩ } :=
  ⟨rfl, rfl, by decide,
    bool_shorthand_resolves_to_empty_range
      ⟨⟨[]⟩, "flag", none, .Bool, none, .Integer 7⟩ mir.GlobalConfig.default 7 none
      none rfl rfl (by decide) rfl rfl⟩

theorem global_config_fold_ok_no_dup (all : List dsl_hir.GlobalConfig)
    (rem : List dsl_hir.GlobalConfig) :
    ∀ (gc g : mir.GlobalConfig),
      dsl_hir_mir_transform.global_config_fold all gc rem = .ok g →
      ∀ c ∈ rem,
        ¬ 1 < all.countP fun check => dsl_hir_mir_transform.sameKind check c := by
  induction rem with
  | nil => intro gc g _ c hc; simp at hc
  | cons c0 rest ih =>
    intro gc g hfold c hc
    rw [dsl_hir_mir_transform.global_config_fold] at hfold
    by_cases hdup :
        1 < all.countP fun check => dsl_hir_mir_transform.sameKind check c0
    · rw [if_pos hdup] at hfold
      exact absurd hfold (by simp)
    · rw [if_neg hdup] at hfold
      cases hap : dsl_hir_mir_transform.apply_config gc c0 with
      | error e => rw [hap] at hfold; exact absurd hfold (by simp)
      | ok gc' =>
        rw [hap] at hfold
        rcases List.mem_cons.mp hc with rfl | hmem
        · exact hdup
        · exact ih gc' g hfold c hmem

theorem apply_config_isOk (gc : mir.GlobalConfig) (c : dsl_hir.GlobalConfig)
    (h : dsl_hir_mir_transform.config_valid c = true) :
    (dsl_hir_mir_transform.apply_config gc c).isOk = true := by
  cases c with
  | RegisterAddressType s =>
    simp only [dsl_hir_mir_transform.config_valid] at h
    cases hi : dsl_hir_mir_transform.integer_try_from s with
    | error e => rw [hi] at h; simp [Except.isOk, Except.toBool] at h
    | ok i => simp [dsl_hir_mir_transform.apply_config, hi, Except.isOk, Except.toBool]
  | CommandAddressType s =>
    simp only [dsl_hir_mir_transform.config_valid] at h
    cases hi : dsl_hir_mir_transform.integer_try_from s with
    | error e => rw [hi] at h; simp [Except.isOk, Except.toBool] at h
    | ok i => simp [dsl_hir_mir_transform.apply_config, hi, Except.isOk, Except.toBool]
  | BufferAddressType s =>
    simp only [dsl_hir_mir_transform.config_valid] at h
    cases hi : dsl_hir_mir_transform.integer_try_from s with
    | error e => rw [hi] at h; simp [Except.isOk, Except.toBool] at h
    | ok i => simp [dsl_hir_mir_transform.apply_config, hi, Except.isOk, Except.toBool]
  | DefaultRegisterAccess a =>
    simp [dsl_hir_mir_transform.apply_config, Except.isOk, Except.toBool]
  | DefaultFieldAccess a =>
    simp [dsl_hir_mir_transform.apply_config, Except.isOk, Except.toBool]
  | DefaultBufferAccess a =>
    simp [dsl_hir_mir_transform.apply_config, Except.isOk, Except.toBool]
  | DefaultByteOrder o =>
    simp [dsl_hir_mir_transform.apply_config, Except.isOk, Except.toBool]
  | DefaultBitOrder o =>
    simp [dsl_hir_mir_transform.apply_config, Except.isOk, Except.toBool]
  | NameCase c =>
    simp [dsl_hir_mir_transform.apply_config, Except.isOk, Except.toBool]

theorem global_config_fold_ok_of_valid (all : List dsl_hir.GlobalConfig)
    (rem : List dsl_hir.GlobalConfig) :
    ∀ (gc : mir.GlobalConfig),
      (∀ c ∈ rem,
        ¬ 1 < all.countP fun check => dsl_hir_mir_transform.sameKind check c) →
      (∀ c ∈ rem, dsl_hir_mir_transform.config_valid c = true) →
      (dsl_hir_mir_transform.global_config_fold all gc rem).isOk = true := by
  induction rem with
  | nil =>
    intro gc _ _
    simp [dsl_hir_mir_transform.global_config_fold, Except.isOk, Except.toBool]
  | cons c0 rest ih =>
    intro gc hnd hv
    rw [dsl_hir_mir_transform.global_config_fold,
      if_neg (hnd c0 (List.mem_cons_self c0 rest))]
    cases hap : dsl_hir_mir_transform.apply_config gc c0 with
    | error e =>
      have := apply_config_isOk gc c0 (hv c0 (List.mem_cons_self c0 rest))
      rw [hap] at this
      simp [Except.isOk, Except.toBool] at this
    | ok gc' =>
      exact ih gc' (fun c hc => hnd c (List.mem_cons_of_mem c0 hc))
        (fun c hc => hv c (List.mem_cons_of_mem c0 hc))

/-- C5 (counterexample): a config list with a single entry
(`RegisterAddressType foo`, no duplicate kinds) fails to fold — with the
"must be an integer type" error — and a list that does contain two
entries of the same kind (`DefaultBitOrder` twice) also fails with that
same non-duplicate error, because the invalid address-type entry is
processed first. -/
theorem duplicate_global_config_counterexample :
    dsl_hir_mir_transform.global_config_try_from ⟨[.RegisterAddressType "foo"]⟩ =
      .error .mustBeIntegerType ∧
    dsl_hir_mir_transform.hasDuplicateKind
      [.RegisterAddressType "foo", .DefaultBitOrder .LSB0, .DefaultBitOrder .MSB0] = true ∧
    dsl_hir_mir_transform.global_config_try_from
        ⟨[.RegisterAddressType "foo", .DefaultBitOrder .LSB0, .DefaultBitOrder .MSB0]⟩ =
      .error .mustBeIntegerType :=
  ⟨rfl, rfl, rfl⟩

/-- C5 (amended): a global config list containing two entries of the
same option kind never folds successfully (resolution fails with an
error, the duplicate-config error in particular when every entry
resolves on its own); a config list with at most one entry per kind all
of whose address-type entries name valid integer types is folded into
the GlobalConfig without error. -/
theorem duplicate_global_config (l : List dsl_hir.GlobalConfig) :
    (dsl_hir_mir_transform.hasDuplicateKind l = true →
      (dsl_hir_mir_transform.global_config_try_from ⟨l⟩).isOk = false) ∧
    (dsl_hir_mir_transform.hasDuplicateKind l = false →
      l.all dsl_hir_mir_transform.config_valid = true →
      (dsl_hir_mir_transform.global_config_try_from ⟨l⟩).isOk = true) := by
  constructor
  · intro hdup
    cases hok : dsl_hir_mir_transform.global_config_try_from ⟨l⟩ with
    | error e => simp [Except.isOk, Except.toBool]
    | ok g =>
      exfalso
      obtain ⟨c, hcmem, hcnt⟩ := List.any_eq_true.mp hdup
      exact absurd (of_decide_eq_true hcnt)
        (global_config_fold_ok_no_dup l l mir.GlobalConfig.default g hok c hcmem)
  · intro hnodup hvalid
    apply global_config_fold_ok_of_valid
    · intro c hc hgt
      have : dsl_hir_mir_transform.hasDuplicateKind l = true :=
        List.any_eq_true.mpr ⟨c, hc, decide_eq_true hgt⟩
      rw [this] at hnodup
      simp at hnodup
    · intro c hc
      exact List.all_eq_true.mp hvalid c hc

theorem duplicate_global_config_witness :
    dsl_hir_mir_transform.hasDuplicateKind
      [.DefaultBitOrder .LSB0, .DefaultBitOrder .MSB0] = true ∧
    (dsl_hir_mir_transform.global_config_try_from
      ⟨[.DefaultBitOrder .LSB0, .DefaultBitOrder .MSB0]⟩).isOk = false ∧
    dsl_hir_mir_transform.hasDuplicateKind [.DefaultByteOrder .BE] = false ∧
    ([dsl_hir.GlobalConfig.DefaultByteOrder .BE]).all
      dsl_hir_mir_transform.config_valid = true ∧
    (dsl_hir_mir_transform.global_config_try_from ⟨[.DefaultByteOrder .BE]⟩).isOk = true :=
  ⟨rfl, (duplicate_global_config _).1 rfl, rfl, rfl,
    (duplicate_global_config _).2 rfl rfl⟩

/-- C6 (counterexample): a command in extended form with no `ADDRESS`
item whose attribute list carries two cfg attributes fails with the
cfg-count error, whose message does not name the command — so the
missing-address failure is not always reported with an error naming the
offending object. -/
theorem command_missing_address_counterexample :
    dsl_hir_mir_transform.transform_command
        ⟨⟨[.Cfg "a" 0, .Cfg "b" 0]⟩, "Foo", some (.Extended ⟨[]⟩ none none)⟩
        mir.GlobalConfig.default = .error (.onlyOneCfg 2) ∧
    (TError.onlyOneCfg 2).namedObject = none ∧
    (TError.onlyOneCfg 2).namedObject ≠ some "Foo" :=
  ⟨rfl, rfl, by decide⟩

/-- C6 (amended): a command with no value always fails with the
missing-value error naming the command; a command in extended form with
no `ADDRESS` item fails with the missing-address error naming the
command provided its attribute list passes the cfg check (otherwise the
cfg-count error, which names no object, is reported first); likewise a
buffer without an address fails with the missing-address error naming
the buffer provided its attribute list passes the cfg check; in the
basic numeric form the numeric value itself becomes the address and
resolution succeeds. -/
theorem command_buffer_required_address :
    (∀ (cmd : dsl_hir.Command) (gc : mir.GlobalConfig), cmd.value = none →
      dsl_hir_mir_transform.transform_command cmd gc =
        .error (.commandMustHaveValue cmd.identifier)) ∧
    (∀ (cmd : dsl_hir.Command) (gc : mir.GlobalConfig)
        (items : dsl_hir.CommandItemList) (ifl ofl : Option dsl_hir.FieldList)
        (ca : Option String),
      cmd.value = some (.Extended items ifl ofl) →
      dsl_hir_mir_transform.find_address_item items.items = none →
      dsl_hir_mir_transform.get_cfg_attr cmd.attribute_list = .ok ca →
      dsl_hir_mir_transform.transform_command cmd gc =
        .error (.commandMustHaveAddress cmd.identifier)) ∧
    (∀ (buf : dsl_hir.Buffer) (gc : mir.GlobalConfig) (ca : Option String),
      buf.address = none →
      dsl_hir_mir_transform.get_cfg_attr buf.attribute_list = .ok ca →
      dsl_hir_mir_transform.transform_buffer buf gc =
        .error (.bufferMustHaveAddress buf.identifier)) ∧
    (∀ (cmd : dsl_hir.Command) (gc : mir.GlobalConfig) (lit : Nat) (ca : Option String),
      cmd.value = some (.Basic lit) →
      dsl_hir_mir_transform.get_cfg_attr cmd.attribute_list = .ok ca →
      lit < 2 ^ 64 →
      dsl_hir_mir_transform.transform_command cmd gc =
        .ok { cfg_attr := ca,
              description :=
                (dsl_hir_mir_transform.get_description cmd.attribute_list).getD "",
              name := cmd.identifier, address := lit,
              byte_order := gc.default_byte_order, bit_order := gc.default_bit_order,
              size_bits_in := 0, size_bits_out := 0, repeat_ := none,
              in_fields := [], out_fields := [] }) ∧
    (∀ n : String, (TError.commandMustHaveValue n).namedObject = some n ∧
      (TError.commandMustHaveAddress n).namedObject = some n ∧
      (TError.bufferMustHaveAddress n).namedObject = some n) := by
  refine ⟨?_, ?_, ?_, ?_, ?_⟩
  · intro cmd gc hv
    simp only [dsl_hir_mir_transform.transform_command, hv]
  · intro cmd gc items ifl ofl ca hv hfind hc
    simp only [dsl_hir_mir_transform.transform_command, hv, hc,
      dsl_hir_mir_transform.command_address, hfind]
  · intro buf gc ca hb hc
    simp only [dsl_hir_mir_transform.transform_buffer, hc, hb]
  · intro cmd gc lit ca hv hc hlit
    simp only [dsl_hir_mir_transform.transform_command, hv, hc,
      dsl_hir_mir_transform.command_address, dsl_hir_mir_transform.base10_parse,
      if_pos hlit, dsl_hir_mir_transform.command_size_bits_in,
      dsl_hir_mir_transform.command_size_bits_out,
      dsl_hir_mir_transform.command_repeat, dsl_hir_mir_transform.command_in_fields,
      dsl_hir_mir_transform.command_out_fields,
      dsl_hir_mir_transform.command_byte_order,
      dsl_hir_mir_transform.command_bit_order, Option.getD_none]
  · intro n
    exact ⟨rfl, rfl, rfl⟩

theorem command_buffer_required_address_witness :
    (⟨⟨[]⟩, "NoVal", none⟩ : dsl_hir.Command).value = none ∧
    dsl_hir_mir_transform.transform_command ⟨⟨[]⟩, "NoVal", none⟩
      mir.GlobalConfig.default = .error (.commandMustHaveValue "NoVal") ∧
    dsl_hir_mir_transform.find_address_item
      (⟨[dsl_hir.CommandItem.SizeBitsIn 8]⟩ : dsl_hir.CommandItemList).items = none ∧
    dsl_hir_mir_transform.transform_command
      ⟨⟨[]⟩, "NoAddr", some (.Extended ⟨[dsl_hir.CommandItem.SizeBitsIn 8]⟩ none none)⟩
      mir.GlobalConfig.default = .error (.commandMustHaveAddress "NoAddr") ∧
    dsl_hir_mir_transform.transform_buffer ⟨⟨[]⟩, "Buf", none, none⟩
      mir.GlobalConfig.default = .error (.bufferMustHaveAddress "Buf") ∧
    dsl_hir_mir_transform.transform_command ⟨⟨[]⟩, "Basic", some (.Basic 5)⟩
      mir.GlobalConfig.default =
      .ok { cfg_attr := none,
            description := (dsl_hir_mir_transform.get_description ⟨[]⟩).getD "",
            name := "Basic", address := 5,
            byte_order := mir.GlobalConfig.default.default_byte_order,
            bit_order := mir.GlobalConfig.default.default_bit_order,
            size_bits_in := 0, size_bits_out := 0, repeat_ := none,
            in_fields := [], out_fields := [] } :=
  ⟨rfl,
    command_buffer_required_address.1 ⟨⟨[]⟩, "NoVal", none⟩ mir.GlobalConfig.default rfl,
    rfl,
    command_buffer_required_address.2.1
      ⟨⟨[]⟩, "NoAddr", some (.Extended ⟨[dsl_hir.CommandItem.SizeBitsIn 8]⟩ none none)⟩
      mir.GlobalConfig.default ⟨[dsl_hir.CommandItem.SizeBitsIn 8]⟩ none none none rfl
      rfl rfl,
    command_buffer_required_address.2.2.1 ⟨⟨[]⟩, "Buf", none, none⟩
      mir.GlobalConfig.default none rfl rfl,
    command_buffer_required_address.2.2.2.1 ⟨⟨[]⟩, "Basic", some (.Basic 5)⟩
      mir.GlobalConfig.default 5 none rfl rfl (by decide)⟩

/-- C7 (counterexample): a ref targeting another ref whose attribute
list carries two cfg attributes fails with the cfg-count error, whose
message does not name the ref — so the ref-to-ref failure is not always
reported with an error naming the offending ref. -/
theorem ref_to_ref_counterexample :
    dsl_hir_mir_transform.transform_ref ⟨[.Cfg "a" 0, .Cfg "b" 0]⟩ "R"
        (dsl_hir.Object.Ref ⟨[]⟩ "S" (dsl_hir.Object.Command ⟨⟨[]⟩, "C", none⟩))
        mir.GlobalConfig.default = .err (.onlyOneCfg 2) ∧
    (TError.onlyOneCfg 2).namedObject = none ∧
    (TError.onlyOneCfg 2).namedObject ≠ some "R" :=
  ⟨rfl, rfl, by decide⟩

/-- C7 (amended): a ref whose target is itself a ref never resolves (no
alias chain of length greater than one); it fails with the ref-to-ref
error naming the offending ref provided the ref's attribute list passes
the cfg check (otherwise the cfg-count error, which names no object, is
reported first). -/
theorem ref_to_ref_rejected :
    (∀ (al : dsl_hir.AttributeList) (nm : String) (a : dsl_hir.AttributeList)
        (b : String) (t : dsl_hir.Object) (gc : mir.GlobalConfig) (ca : Option String),
      dsl_hir_mir_transform.get_cfg_attr al = .ok ca →
      dsl_hir_mir_transform.transform_ref al nm (dsl_hir.Object.Ref a b t) gc =
        .err (.refToRef nm)) ∧
    (∀ (al : dsl_hir.AttributeList) (nm : String) (a : dsl_hir.AttributeList)
        (b : String) (t : dsl_hir.Object) (gc : mir.GlobalConfig) (r : mir.RefObject),
      dsl_hir_mir_transform.transform_ref al nm (dsl_hir.Object.Ref a b t) gc ≠
        .ok r) ∧
    (∀ n : String, (TError.refToRef n).namedObject = some n) := by
  refine ⟨?_, ?_, fun n => rfl⟩
  · intro al nm a b t gc ca hc
    simp only [dsl_hir_mir_transform.transform_ref, hc, liftE, TResult.bind]
  · intro al nm a b t gc r
    cases hc : dsl_hir_mir_transform.get_cfg_attr al <;>
      simp [dsl_hir_mir_transform.transform_ref, hc, liftE, TResult.bind]

theorem ref_to_ref_rejected_witness :
    dsl_hir_mir_transform.get_cfg_attr (⟨[]⟩ : dsl_hir.AttributeList) = .ok none ∧
    dsl_hir_mir_transform.transform_ref ⟨[]⟩ "R"
        (dsl_hir.Object.Ref ⟨[]⟩ "S" (dsl_hir.Object.Command ⟨⟨[]⟩, "C", none⟩))
        mir.GlobalConfig.default = .err (.refToRef "R") :=
  ⟨rfl,
    ref_to_ref_rejected.1 ⟨[]⟩ "R" ⟨[]⟩ "S"
      (dsl_hir.Object.Command ⟨⟨[]⟩, "C", none⟩) mir.GlobalConfig.default none rfl⟩
